import Mathlib

/-!
Shallow embedding of the SPI flash driver `rvlib_spiflash.c` from the
te0890-utils repository.

The driver talks to a memory-mapped SPI controller (registers STATUS,
SLAVESEL, DATA) and, through it, to a NOR flash device.  Hardware inputs
(STATUS words read in busy-wait loops, data bytes dequeued from DATA,
flag-status bytes returned by the device, cycle-counter readings) are
modelled as explicit scripts (lists) consumed by the embedded functions.
Each function returns `none` when its script is exhausted before the
corresponding C loop would have exited; a `some` result corresponds to a
terminating execution of the C code.

Two levels are embedded:
* the register-access level (bus primitives and command framing), whose
  executions produce a trace of register accesses (`RegAcc`);
* the flash-operation level (`page_program`, `sector_erase`, `init`,
  `poll_completion`), whose executions produce a trace of framed SPI
  commands (`SpiAct`).
-/

/-! ### Constants from `rvlib_spiflash.c` / `rvlib_spiflash.h` -/

def RVLIB_SPIFLASH_BIT_STATUS_BUSY : Nat := 0
def RVLIB_SPIFLASH_BIT_STATUS_CMDRDY : Nat := 1
def RVLIB_SPIFLASH_BIT_STATUS_READRDY : Nat := 2

def SPIFLASH_PROGRAM_TIMEOUT_US : Nat := 5000
def SPIFLASH_ERASE_TIMEOUT_US : Nat := 3 * 1000 * 1000

def SPIFLASH_CMD_READ_ID : Nat := 0x9f
def SPIFLASH_CMD_READ : Nat := 0x03
def SPIFLASH_CMD_WRITE_ENABLE : Nat := 0x06
def SPIFLASH_CMD_READ_FLAGS : Nat := 0x70
def SPIFLASH_CMD_CLEAR_FLAGS : Nat := 0x50
def SPIFLASH_CMD_PAGE_PROGRAM : Nat := 0x02
def SPIFLASH_CMD_SECTOR_ERASE : Nat := 0xd8

def SPIFLASH_BIT_FLAGS_PROGRAM_ERROR : Nat := 4
def SPIFLASH_BIT_FLAGS_ERASE_ERROR : Nat := 5
def SPIFLASH_BIT_FLAGS_READY : Nat := 7

def RVLIB_SPIFLASH_ERR_FAILED : Int := -1
def RVLIB_SPIFLASH_ERR_TIMEOUT : Int := -2
def RVLIB_SPIFLASH_ERR_NOTREADY : Int := -3

/-! ### Register-access traces -/

/-- One access to a register of the memory-mapped SPI controller. -/
inductive RegAcc where
  | readStatus (v : Nat)
  | writeData (v : Nat)
  | readData (v : Nat)
  | writeSlaveSel (v : Nat)
deriving Repr, DecidableEq

/-- Is this access a write to the SLAVESEL register? -/
def RegAcc.isSlaveSelWrite : RegAcc → Bool
  | .writeSlaveSel _ => true
  | _ => false

/-! ### Bus primitive layer -/

/-- `spi_send_byte`: busy-wait reading STATUS until the CMDRDY bit is set,
then write the byte (truncated to 8 bits, as the `uint8_t` parameter does)
to the DATA register.  The script lists the successive STATUS words read;
`none` if the script ends before CMDRDY is observed. -/
def spi_send_byte (b : Nat) : List Nat → Option (List RegAcc)
  | [] => none
  | st :: rest =>
    if st.testBit RVLIB_SPIFLASH_BIT_STATUS_CMDRDY then
      some [RegAcc.readStatus st, RegAcc.writeData (b % 256)]
    else
      (spi_send_byte b rest).map (fun t => RegAcc.readStatus st :: t)

/-- Local state of the `spi_read_bytes` loop: `p` bytes captured so far,
`ncmd` dummy-byte requests still to issue, `buf` the captured bytes. -/
structure RB where
  p : Nat
  ncmd : Nat
  buf : List Nat
deriving Repr, DecidableEq

/-- One iteration of the `spi_read_bytes` loop body, given the STATUS word
`st` read at the top of the iteration and the DATA value `d` that would be
dequeued if READRDY is set: if `ncmd > 0` and CMDRDY is set, write the
dummy sentinel 0x100 to DATA and decrement `ncmd`; then, if READRDY is
set, dequeue `d` into the buffer and advance `p`. -/
def rbStep (st d : Nat) (s : RB) : RB :=
  let s1 : RB :=
    if 0 < s.ncmd && st.testBit RVLIB_SPIFLASH_BIT_STATUS_CMDRDY then
      RB.mk s.p (s.ncmd - 1) s.buf
    else s
  if st.testBit RVLIB_SPIFLASH_BIT_STATUS_READRDY then
    RB.mk (s1.p + 1) s1.ncmd (s1.buf ++ [d])
  else s1

/-- Register accesses performed by one iteration of the `spi_read_bytes`
loop body (STATUS read, then conditionally the dummy request and the
data dequeue). -/
def rbTrace (st d : Nat) (s : RB) : List RegAcc :=
  RegAcc.readStatus st ::
    ((if 0 < s.ncmd && st.testBit RVLIB_SPIFLASH_BIT_STATUS_CMDRDY then
        [RegAcc.writeData 0x100]
      else []) ++
     (if st.testBit RVLIB_SPIFLASH_BIT_STATUS_READRDY then
        [RegAcc.readData d]
      else []))

/-- The `while (p < nbytes)` loop of `spi_read_bytes`, consuming a script
of (STATUS word, DATA value) observations, one per iteration.  Returns the
final loop state and the register-access trace, or `none` if the script
ends before the loop exits. -/
def spi_read_bytes_go (nbytes : Nat) (s : RB) :
    List (Nat × Nat) → Option (RB × List RegAcc)
  | [] => if nbytes ≤ s.p then some (s, []) else none
  | (st, d) :: rest =>
    if nbytes ≤ s.p then some (s, [])
    else
      match spi_read_bytes_go nbytes (rbStep st d s) rest with
      | none => none
      | some (sf, t) => some (sf, rbTrace st d s ++ t)

/-- `spi_read_bytes(buf, nbytes)` started from the initial state
`p = 0`, `ncmd = nbytes`, empty buffer. -/
def spi_read_bytes (nbytes : Nat) (obs : List (Nat × Nat)) :
    Option (RB × List RegAcc) :=
  spi_read_bytes_go nbytes (RB.mk 0 nbytes []) obs

/-- `spi_end_transaction`: busy-wait reading STATUS until the BUSY bit is
clear, then deselect the slave by writing 0 to the SLAVESEL register. -/
def spi_end_transaction : List Nat → Option (List RegAcc)
  | [] => none
  | st :: rest =>
    if st.testBit RVLIB_SPIFLASH_BIT_STATUS_BUSY then
      (spi_end_transaction rest).map (fun t => RegAcc.readStatus st :: t)
    else
      some [RegAcc.readStatus st, RegAcc.writeSlaveSel 0]

/-! ### Command framing layer (register level)

Each framing function takes one status/observation script per busy-wait
phase, in program order. -/

/-- `spi_command_simple(cmd)`: send one command byte, then end the
transaction. -/
def spi_command_simple (cmd : Nat) (s1 s2 : List Nat) :
    Option (List RegAcc) :=
  match spi_send_byte cmd s1 with
  | none => none
  | some t1 =>
    match spi_end_transaction s2 with
    | none => none
    | some t2 => some (t1 ++ t2)

/-- `spi_command_read(cmd, buf, nbytes)`: send the command byte, read
`nbytes` reply bytes, then end the transaction. -/
def spi_command_read (cmd : Nat) (nbytes : Nat) (s1 : List Nat)
    (obs : List (Nat × Nat)) (s2 : List Nat) :
    Option (RB × List RegAcc) :=
  match spi_send_byte cmd s1 with
  | none => none
  | some t1 =>
    match spi_read_bytes nbytes obs with
    | none => none
    | some (sf, t2) =>
      match spi_end_transaction s2 with
      | none => none
      | some t3 => some (sf, t1 ++ t2 ++ t3)

/-- `spi_command_addr_read(cmd, addr, buf, nbytes)`: send the command
byte, the 24-bit address as three bytes most-significant first, read
`nbytes` reply bytes, then end the transaction. -/
def spi_command_addr_read (cmd addr : Nat) (nbytes : Nat)
    (s1 s2 s3 s4 : List Nat) (obs : List (Nat × Nat)) (s5 : List Nat) :
    Option (RB × List RegAcc) :=
  match spi_send_byte cmd s1 with
  | none => none
  | some t1 =>
    match spi_send_byte (addr / 2 ^ 16) s2 with
    | none => none
    | some t2 =>
      match spi_send_byte (addr / 2 ^ 8) s3 with
      | none => none
      | some t3 =>
        match spi_send_byte addr s4 with
        | none => none
        | some t4 =>
          match spi_read_bytes nbytes obs with
          | none => none
          | some (sf, t5) =>
            match spi_end_transaction s5 with
            | none => none
            | some t6 => some (sf, t1 ++ t2 ++ t3 ++ t4 ++ t5 ++ t6)

/-- The payload loop of `spi_command_addr_write`: send each data byte in
order, each with its own status script. -/
def spi_send_data : List Nat → List (List Nat) → Option (List RegAcc)
  | [], _ => some []
  | _ :: _, [] => none
  | b :: bs, sc :: scs =>
    match spi_send_byte b sc with
    | none => none
    | some t1 =>
      match spi_send_data bs scs with
      | none => none
      | some t2 => some (t1 ++ t2)

/-- `spi_command_addr_write(cmd, addr, data, nbytes)`: send the command
byte, the 24-bit address as three bytes most-significant first, then each
payload byte in order, then end the transaction. -/
def spi_command_addr_write (cmd addr : Nat) (data : List Nat)
    (s1 s2 s3 s4 : List Nat) (scs : List (List Nat)) (s5 : List Nat) :
    Option (List RegAcc) :=
  match spi_send_byte cmd s1 with
  | none => none
  | some t1 =>
    match spi_send_byte (addr / 2 ^ 16) s2 with
    | none => none
    | some t2 =>
      match spi_send_byte (addr / 2 ^ 8) s3 with
      | none => none
      | some t3 =>
        match spi_send_byte addr s4 with
        | none => none
        | some t4 =>
          match spi_send_data data scs with
          | none => none
          | some t5 =>
            match spi_end_transaction s5 with
            | none => none
            | some t6 => some (t1 ++ t2 ++ t3 ++ t4 ++ t5 ++ t6)

/-! ### Completion polling -/

/-- Reduction modulo 2^64, the width of the cycle counter (`uint64_t`). -/
def mod64 (x : Nat) : Nat := x % 2 ^ 64

/-- Unsigned 64-bit subtraction `a - b`, as computed on `uint64_t`. -/
def sub64 (a b : Nat) : Nat := (mod64 a + (2 ^ 64 - mod64 b)) % 2 ^ 64

/-- The poll deadline: `end_time = get_cycle_counter() + MHZ * timeout_us`
in 64-bit arithmetic, where `start` is the counter value read at entry. -/
def spiflash_end_time (mhz timeout_us start : Nat) : Nat :=
  mod64 (start + mhz * timeout_us)

/-- The polling loop of `spiflash_poll_completion`.  Each script entry is
(flag byte returned by the READ FLAGS query, cycle-counter value read
after it).  Each iteration queries the flags; if the READY bit is set the
loop breaks; otherwise, if `end_time - time_now` (unsigned 64-bit) is at
least 2^63 the loop breaks.  Returns the flag byte of the final query and
the number of queries issued, or `none` if the script is exhausted. -/
def spiflash_poll_go (end_time : Nat) :
    List (Nat × Nat) → Option (Nat × Nat)
  | [] => none
  | (flags, now) :: rest =>
    if flags.testBit SPIFLASH_BIT_FLAGS_READY then some (flags, 1)
    else if 2 ^ 63 ≤ sub64 end_time now then some (flags, 1)
    else
      match spiflash_poll_go end_time rest with
      | none => none
      | some (f, k) => some (f, k + 1)

/-- `spiflash_poll_completion(timeout_us)`, with the CPU frequency in MHz
and the entry cycle-counter value as parameters. -/
def spiflash_poll_completion (mhz timeout_us start : Nat)
    (resps : List (Nat × Nat)) : Option (Nat × Nat) :=
  spiflash_poll_go (spiflash_end_time mhz timeout_us start) resps

/-! ### Flash operation layer

At this level an execution produces a trace of framed SPI commands; the
completion poll contributes one `cmdRead READ_FLAGS 1` per query. -/

/-- One framed SPI command transaction, as issued by the flash-operation
layer through the framing functions. -/
inductive SpiAct where
  | cmdSimple (cmd : Nat)
  | cmdRead (cmd : Nat) (nbytes : Nat)
  | cmdAddrRead (cmd : Nat) (addr : Nat) (nbytes : Nat)
  | cmdAddrWrite (cmd : Nat) (addr : Nat) (data : List Nat)
deriving Repr, DecidableEq

/-- `rvlib_spiflash_page_program(address, data, nbytes)`: (1) query the
flag status; if the READY bit is clear return NOTREADY; (2) clear flags;
(3) write enable; (4) PAGE PROGRAM command with address and payload;
(5) poll completion with the program timeout; (6) if READY still clear
return TIMEOUT; (7) if the PROGRAM ERROR bit is set, clear flags and
return FAILED; (8) otherwise return 0.  `pre` is the flag byte returned
by the pre-flight query, `resps` the poll script. -/
def rvlib_spiflash_page_program (mhz start : Nat) (pre : Nat)
    (resps : List (Nat × Nat)) (address : Nat) (data : List Nat) :
    Option (Int × List SpiAct) :=
  if pre.testBit SPIFLASH_BIT_FLAGS_READY = false then
    some (RVLIB_SPIFLASH_ERR_NOTREADY, [SpiAct.cmdRead SPIFLASH_CMD_READ_FLAGS 1])
  else
    match spiflash_poll_completion mhz SPIFLASH_PROGRAM_TIMEOUT_US start resps with
    | none => none
    | some (flags, k) =>
      let tr : List SpiAct :=
        [SpiAct.cmdRead SPIFLASH_CMD_READ_FLAGS 1,
         SpiAct.cmdSimple SPIFLASH_CMD_CLEAR_FLAGS,
         SpiAct.cmdSimple SPIFLASH_CMD_WRITE_ENABLE,
         SpiAct.cmdAddrWrite SPIFLASH_CMD_PAGE_PROGRAM address data] ++
        List.replicate k (SpiAct.cmdRead SPIFLASH_CMD_READ_FLAGS 1)
      if flags.testBit SPIFLASH_BIT_FLAGS_READY = false then
        some (RVLIB_SPIFLASH_ERR_TIMEOUT, tr)
      else if flags.testBit SPIFLASH_BIT_FLAGS_PROGRAM_ERROR then
        some (RVLIB_SPIFLASH_ERR_FAILED,
              tr ++ [SpiAct.cmdSimple SPIFLASH_CMD_CLEAR_FLAGS])
      else
        some (0, tr)

/-- `rvlib_spiflash_sector_erase(address)`: the same sequence as
`rvlib_spiflash_page_program` with the SECTOR ERASE command, no payload,
the erase timeout, and the ERASE ERROR flag. -/
def rvlib_spiflash_sector_erase (mhz start : Nat) (pre : Nat)
    (resps : List (Nat × Nat)) (address : Nat) :
    Option (Int × List SpiAct) :=
  if pre.testBit SPIFLASH_BIT_FLAGS_READY = false then
    some (RVLIB_SPIFLASH_ERR_NOTREADY, [SpiAct.cmdRead SPIFLASH_CMD_READ_FLAGS 1])
  else
    match spiflash_poll_completion mhz SPIFLASH_ERASE_TIMEOUT_US start resps with
    | none => none
    | some (flags, k) =>
      let tr : List SpiAct :=
        [SpiAct.cmdRead SPIFLASH_CMD_READ_FLAGS 1,
         SpiAct.cmdSimple SPIFLASH_CMD_CLEAR_FLAGS,
         SpiAct.cmdSimple SPIFLASH_CMD_WRITE_ENABLE,
         SpiAct.cmdAddrWrite SPIFLASH_CMD_SECTOR_ERASE address []] ++
        List.replicate k (SpiAct.cmdRead SPIFLASH_CMD_READ_FLAGS 1)
      if flags.testBit SPIFLASH_BIT_FLAGS_READY = false then
        some (RVLIB_SPIFLASH_ERR_TIMEOUT, tr)
      else if flags.testBit SPIFLASH_BIT_FLAGS_ERASE_ERROR then
        some (RVLIB_SPIFLASH_ERR_FAILED,
              tr ++ [SpiAct.cmdSimple SPIFLASH_CMD_CLEAR_FLAGS])
      else
        some (0, tr)

/-- Spec-side abstraction, following the specification's description of
the shared Page-Program / Sector-Erase state sequence (pre-flight
readiness check, clear flags, write enable, command+address transaction,
completion poll, result interpretation), parameterised by the command
code, the payload, the timeout class and the error-flag bit consulted in
the result interpretation. -/
def spiflash_write_op_spec (mhz start : Nat) (cmd : Nat)
    (payload : List Nat) (timeout_us errbit : Nat) (pre : Nat)
    (resps : List (Nat × Nat)) (address : Nat) :
    Option (Int × List SpiAct) :=
  if pre.testBit SPIFLASH_BIT_FLAGS_READY = false then
    some (RVLIB_SPIFLASH_ERR_NOTREADY, [SpiAct.cmdRead SPIFLASH_CMD_READ_FLAGS 1])
  else
    match spiflash_poll_completion mhz timeout_us start resps with
    | none => none
    | some (flags, k) =>
      let tr : List SpiAct :=
        [SpiAct.cmdRead SPIFLASH_CMD_READ_FLAGS 1,
         SpiAct.cmdSimple SPIFLASH_CMD_CLEAR_FLAGS,
         SpiAct.cmdSimple SPIFLASH_CMD_WRITE_ENABLE,
         SpiAct.cmdAddrWrite cmd address payload] ++
        List.replicate k (SpiAct.cmdRead SPIFLASH_CMD_READ_FLAGS 1)
      if flags.testBit SPIFLASH_BIT_FLAGS_READY = false then
        some (RVLIB_SPIFLASH_ERR_TIMEOUT, tr)
      else if flags.testBit errbit then
        some (RVLIB_SPIFLASH_ERR_FAILED,
              tr ++ [SpiAct.cmdSimple SPIFLASH_CMD_CLEAR_FLAGS])
      else
        some (0, tr)

/-- The drain loop of `rvlib_spiflash_init`: read STATUS; if READRDY is
set, dequeue one byte from DATA and continue; else if BUSY is clear,
exit; else continue.  The script lists (STATUS word, DATA value)
observations, one per iteration. -/
def rvlib_init_drain : List (Nat × Nat) → Option (List RegAcc)
  | [] => none
  | (st, d) :: rest =>
    if st.testBit RVLIB_SPIFLASH_BIT_STATUS_READRDY then
      (rvlib_init_drain rest).map
        (fun t => RegAcc.readStatus st :: RegAcc.readData d :: t)
    else if st.testBit RVLIB_SPIFLASH_BIT_STATUS_BUSY then
      (rvlib_init_drain rest).map (fun t => RegAcc.readStatus st :: t)
    else
      some [RegAcc.readStatus st]

/-- `rvlib_spiflash_init()`: drain the controller, then issue command
0xFF twice, a CLEAR FLAGS command, and a completion poll with the erase
timeout.  Returns the drain's register trace and the framed-command
trace. -/
def rvlib_spiflash_init (mhz : Nat) (drainScript : List (Nat × Nat))
    (start : Nat) (resps : List (Nat × Nat)) :
    Option (List RegAcc × List SpiAct) :=
  match rvlib_init_drain drainScript with
  | none => none
  | some dt =>
    match spiflash_poll_completion mhz SPIFLASH_ERASE_TIMEOUT_US start resps with
    | none => none
    | some (_, k) =>
      some (dt,
        [SpiAct.cmdSimple 0xff, SpiAct.cmdSimple 0xff,
         SpiAct.cmdSimple SPIFLASH_CMD_CLEAR_FLAGS] ++
        List.replicate k (SpiAct.cmdRead SPIFLASH_CMD_READ_FLAGS 1))

/-! ### Environment assumptions and trace predicates -/

/-- Hardware-consistency of a `spi_read_bytes` observation script with
respect to the evolving loop state: whenever the controller reports
READRDY while the loop is still running, a requested byte must actually
be outstanding, i.e. fewer bytes have been captured than dummy-byte
requests issued so far (`p < nbytes - ncmd`). -/
def rbConsistent (nbytes : Nat) (s : RB) : List (Nat × Nat) → Bool
  | [] => true
  | (st, d) :: rest =>
    if nbytes ≤ s.p then true
    else
      (!(st.testBit RVLIB_SPIFLASH_BIT_STATUS_READRDY) ||
        decide (s.p < nbytes - s.ncmd)) &&
      rbConsistent nbytes (rbStep st d s) rest

/-- Count of dummy-byte requests (writes of the sentinel 0x100 to the
DATA register) in a register-access trace. -/
def countDummyWrites (tr : List RegAcc) : Nat :=
  tr.countP (fun a =>
    match a with
    | RegAcc.writeData v => v == 0x100
    | _ => false)

/-- Count of DATA-register reads (captured bytes) in a register-access
trace. -/
def countDataReads (tr : List RegAcc) : Nat :=
  tr.countP (fun a =>
    match a with
    | RegAcc.readData _ => true
    | _ => false)

/-- Shape of a well-formed drain-loop trace: a sequence of iterations,
each a STATUS read with READRDY set followed by exactly one DATA dequeue,
or a STATUS read with READRDY clear and BUSY set (keep waiting), ending
with a single STATUS read in which both READRDY and BUSY are clear. -/
def drainOk : List RegAcc → Bool
  | RegAcc.readStatus v :: rest =>
    if v.testBit RVLIB_SPIFLASH_BIT_STATUS_READRDY then
      match rest with
      | RegAcc.readData _ :: rest2 => drainOk rest2
      | _ => false
    else if v.testBit RVLIB_SPIFLASH_BIT_STATUS_BUSY then
      drainOk rest
    else
      rest.isEmpty
  | _ => false

/-! ### Helper lemmas: the write-class operations as instances of the
generic sequence -/

lemma page_program_eq_write_op (mhz start pre addr : Nat) (data : List Nat)
    (resps : List (Nat × Nat)) :
    rvlib_spiflash_page_program mhz start pre resps addr data =
      spiflash_write_op_spec mhz start SPIFLASH_CMD_PAGE_PROGRAM data
        SPIFLASH_PROGRAM_TIMEOUT_US SPIFLASH_BIT_FLAGS_PROGRAM_ERROR
        pre resps addr := rfl

lemma sector_erase_eq_write_op (mhz start pre addr : Nat)
    (resps : List (Nat × Nat)) :
    rvlib_spiflash_sector_erase mhz start pre resps addr =
      spiflash_write_op_spec mhz start SPIFLASH_CMD_SECTOR_ERASE []
        SPIFLASH_ERASE_TIMEOUT_US SPIFLASH_BIT_FLAGS_ERASE_ERROR
        pre resps addr := rfl

/-- Characterisation of the result of the generic write-class sequence:
each of the four outcomes holds exactly under its branch condition, in
the order the code checks them. -/
lemma write_op_cases (mhz start cmd tus errbit pre addr : Nat)
    (payload : List Nat) (resps : List (Nat × Nat)) (r : Int)
    (tr : List SpiAct)
    (h : spiflash_write_op_spec mhz start cmd payload tus errbit pre resps
          addr = some (r, tr)) :
    (r = RVLIB_SPIFLASH_ERR_NOTREADY ↔
      pre.testBit SPIFLASH_BIT_FLAGS_READY = false) ∧
    (r = RVLIB_SPIFLASH_ERR_TIMEOUT ↔
      pre.testBit SPIFLASH_BIT_FLAGS_READY = true ∧
      ∃ f k, spiflash_poll_completion mhz tus start resps = some (f, k) ∧
        f.testBit SPIFLASH_BIT_FLAGS_READY = false) ∧
    (r = RVLIB_SPIFLASH_ERR_FAILED ↔
      pre.testBit SPIFLASH_BIT_FLAGS_READY = true ∧
      ∃ f k, spiflash_poll_completion mhz tus start resps = some (f, k) ∧
        f.testBit SPIFLASH_BIT_FLAGS_READY = true ∧
        f.testBit errbit = true) ∧
    (r = 0 ↔
      pre.testBit SPIFLASH_BIT_FLAGS_READY = true ∧
      ∃ f k, spiflash_poll_completion mhz tus start resps = some (f, k) ∧
        f.testBit SPIFLASH_BIT_FLAGS_READY = true ∧
        f.testBit errbit = false) := by
  unfold spiflash_write_op_spec at h
  cases hpre : pre.testBit SPIFLASH_BIT_FLAGS_READY with
  | false =>
    simp only [hpre, if_true, Option.some.injEq, Prod.mk.injEq] at h
    obtain ⟨hr, htr⟩ := h
    subst hr
    simp [RVLIB_SPIFLASH_ERR_NOTREADY, RVLIB_SPIFLASH_ERR_TIMEOUT,
      RVLIB_SPIFLASH_ERR_FAILED, hpre]
  | true =>
    cases hpoll : spiflash_poll_completion mhz tus start resps with
    | none => simp [hpre, hpoll] at h
    | some fk =>
      obtain ⟨f, k⟩ := fk
      simp only [hpre, hpoll, Bool.true_eq_false, if_false] at h
      by_cases hf : f.testBit SPIFLASH_BIT_FLAGS_READY
      · by_cases he : f.testBit errbit
        · simp only [hf, he, Bool.true_eq_false, if_false, if_true,
            Option.some.injEq, Prod.mk.injEq] at h
          obtain ⟨hr, htr⟩ := h
          subst hr
          simp [RVLIB_SPIFLASH_ERR_NOTREADY, RVLIB_SPIFLASH_ERR_TIMEOUT,
            RVLIB_SPIFLASH_ERR_FAILED, hpre, hpoll, hf, he]
        · simp only [hf, he, Bool.true_eq_false, if_false,
            Bool.false_eq_true, Option.some.injEq, Prod.mk.injEq] at h
          obtain ⟨hr, htr⟩ := h
          subst hr
          simp [RVLIB_SPIFLASH_ERR_NOTREADY, RVLIB_SPIFLASH_ERR_TIMEOUT,
            RVLIB_SPIFLASH_ERR_FAILED, hpre, hpoll, hf, he]
      · rw [Bool.not_eq_true] at hf
        simp only [hf, if_true, Option.some.injEq, Prod.mk.injEq] at h
        obtain ⟨hr, htr⟩ := h
        subst hr
        simp [RVLIB_SPIFLASH_ERR_NOTREADY, RVLIB_SPIFLASH_ERR_TIMEOUT,
          RVLIB_SPIFLASH_ERR_FAILED, hpre, hpoll, hf]

/-- The polling loop always issues at least one flag query. -/
lemma poll_go_pos (et : Nat) :
    ∀ (resps : List (Nat × Nat)) (f k : Nat),
      spiflash_poll_go et resps = some (f, k) → 1 ≤ k := by
  intro resps
  induction resps with
  | nil => intro f k h; simp [spiflash_poll_go] at h
  | cons x rest ih =>
    obtain ⟨flags, now⟩ := x
    intro f k h
    unfold spiflash_poll_go at h
    split at h
    · simp only [Option.some.injEq, Prod.mk.injEq] at h
      omega
    · split at h
      · simp only [Option.some.injEq, Prod.mk.injEq] at h
        omega
      · cases hrec : spiflash_poll_go et rest with
        | none => simp only [hrec] at h; exact absurd h (by simp)
        | some fk =>
          obtain ⟨f0, k0⟩ := fk
          simp only [hrec, Option.some.injEq, Prod.mk.injEq] at h
          omega

/-- `spiflash_poll_completion` always issues at least one flag query. -/
lemma poll_completion_pos (mhz tus start : Nat) (resps : List (Nat × Nat))
    (f k : Nat)
    (h : spiflash_poll_completion mhz tus start resps = some (f, k)) :
    1 ≤ k :=
  poll_go_pos _ resps f k h

/-- When the generic write-class sequence returns FAILED, its trace is the
standard five-step sequence followed by one extra CLEAR FLAGS command. -/
lemma write_op_failed_trace (mhz start cmd tus errbit pre addr : Nat)
    (payload : List Nat) (resps : List (Nat × Nat)) (tr : List SpiAct)
    (h : spiflash_write_op_spec mhz start cmd payload tus errbit pre resps
          addr = some (RVLIB_SPIFLASH_ERR_FAILED, tr)) :
    ∃ f k, spiflash_poll_completion mhz tus start resps = some (f, k) ∧
      1 ≤ k ∧
      tr = ([SpiAct.cmdRead SPIFLASH_CMD_READ_FLAGS 1,
             SpiAct.cmdSimple SPIFLASH_CMD_CLEAR_FLAGS,
             SpiAct.cmdSimple SPIFLASH_CMD_WRITE_ENABLE,
             SpiAct.cmdAddrWrite cmd addr payload] ++
            List.replicate k (SpiAct.cmdRead SPIFLASH_CMD_READ_FLAGS 1)) ++
        [SpiAct.cmdSimple SPIFLASH_CMD_CLEAR_FLAGS] := by
  unfold spiflash_write_op_spec at h
  cases hpre : pre.testBit SPIFLASH_BIT_FLAGS_READY with
  | false =>
    simp only [hpre, if_true, Option.some.injEq, Prod.mk.injEq] at h
    exact absurd h.1 (by simp [RVLIB_SPIFLASH_ERR_FAILED,
      RVLIB_SPIFLASH_ERR_NOTREADY])
  | true =>
    cases hpoll : spiflash_poll_completion mhz tus start resps with
    | none => simp [hpre, hpoll] at h
    | some fk =>
      obtain ⟨f, k⟩ := fk
      simp only [hpre, hpoll, Bool.true_eq_false, if_false] at h
      by_cases hf : f.testBit SPIFLASH_BIT_FLAGS_READY
      · by_cases he : f.testBit errbit
        · simp only [hf, he, Bool.true_eq_false, if_false, if_true,
            Option.some.injEq, Prod.mk.injEq] at h
          refine ⟨f, k, rfl, poll_completion_pos mhz tus start resps f k hpoll, ?_⟩
          simpa using h.2.symm
        · simp only [hf, he, Bool.true_eq_false, Bool.false_eq_true,
            if_false, Option.some.injEq, Prod.mk.injEq] at h
          exact absurd h.1 (by simp [RVLIB_SPIFLASH_ERR_FAILED])
      · rw [Bool.not_eq_true] at hf
        simp only [hf, if_true, Option.some.injEq, Prod.mk.injEq] at h
        exact absurd h.1 (by simp [RVLIB_SPIFLASH_ERR_FAILED,
          RVLIB_SPIFLASH_ERR_TIMEOUT])

/-- When the pre-flight query reports READY and the completion poll
returns a READY flag byte, the generic sequence completes and its result
is FAILED or 0 according to the consulted error bit only. -/
lemma write_op_ready_result (mhz start cmd tus errbit pre addr : Nat)
    (payload : List Nat) (resps : List (Nat × Nat)) (f k : Nat)
    (hpre : pre.testBit SPIFLASH_BIT_FLAGS_READY = true)
    (hpoll : spiflash_poll_completion mhz tus start resps = some (f, k))
    (hf : f.testBit SPIFLASH_BIT_FLAGS_READY = true) :
    ∃ tr, spiflash_write_op_spec mhz start cmd payload tus errbit pre resps
        addr =
      some (if f.testBit errbit then RVLIB_SPIFLASH_ERR_FAILED else 0, tr) := by
  unfold spiflash_write_op_spec
  by_cases he : f.testBit errbit <;>
    simp [hpre, hpoll, hf, he]

/-! ### Claim theorems (flash-operation layer) -/

/-- C2: for both `rvlib_spiflash_page_program` and
`rvlib_spiflash_sector_erase`, the results NOT_READY, TIMEOUT, FAILED and
success are mutually exclusive and decided in that order: NOT_READY holds
exactly when the pre-flight flag byte has READY clear; TIMEOUT exactly
when READY was set pre-flight but the completion poll returned a flag
byte with READY clear; FAILED exactly when the poll byte has READY set
together with the operation's own error flag; and in every remaining case
the operation returns 0. -/
theorem spiflash_write_ops_error_codes_exclusive
    (mhz start pre addr : Nat) (data : List Nat)
    (resps : List (Nat × Nat)) :
    (∀ r tr,
      rvlib_spiflash_page_program mhz start pre resps addr data =
        some (r, tr) →
      (r = RVLIB_SPIFLASH_ERR_NOTREADY ↔
        pre.testBit SPIFLASH_BIT_FLAGS_READY = false) ∧
      (r = RVLIB_SPIFLASH_ERR_TIMEOUT ↔
        pre.testBit SPIFLASH_BIT_FLAGS_READY = true ∧
        ∃ f k, spiflash_poll_completion mhz SPIFLASH_PROGRAM_TIMEOUT_US
            start resps = some (f, k) ∧
          f.testBit SPIFLASH_BIT_FLAGS_READY = false) ∧
      (r = RVLIB_SPIFLASH_ERR_FAILED ↔
        pre.testBit SPIFLASH_BIT_FLAGS_READY = true ∧
        ∃ f k, spiflash_poll_completion mhz SPIFLASH_PROGRAM_TIMEOUT_US
            start resps = some (f, k) ∧
          f.testBit SPIFLASH_BIT_FLAGS_READY = true ∧
          f.testBit SPIFLASH_BIT_FLAGS_PROGRAM_ERROR = true) ∧
      (r = 0 ↔
        pre.testBit SPIFLASH_BIT_FLAGS_READY = true ∧
        ∃ f k, spiflash_poll_completion mhz SPIFLASH_PROGRAM_TIMEOUT_US
            start resps = some (f, k) ∧
          f.testBit SPIFLASH_BIT_FLAGS_READY = true ∧
          f.testBit SPIFLASH_BIT_FLAGS_PROGRAM_ERROR = false)) ∧
    (∀ r tr,
      rvlib_spiflash_sector_erase mhz start pre resps addr = some (r, tr) →
      (r = RVLIB_SPIFLASH_ERR_NOTREADY ↔
        pre.testBit SPIFLASH_BIT_FLAGS_READY = false) ∧
      (r = RVLIB_SPIFLASH_ERR_TIMEOUT ↔
        pre.testBit SPIFLASH_BIT_FLAGS_READY = true ∧
        ∃ f k, spiflash_poll_completion mhz SPIFLASH_ERASE_TIMEOUT_US
            start resps = some (f, k) ∧
          f.testBit SPIFLASH_BIT_FLAGS_READY = false) ∧
      (r = RVLIB_SPIFLASH_ERR_FAILED ↔
        pre.testBit SPIFLASH_BIT_FLAGS_READY = true ∧
        ∃ f k, spiflash_poll_completion mhz SPIFLASH_ERASE_TIMEOUT_US
            start resps = some (f, k) ∧
          f.testBit SPIFLASH_BIT_FLAGS_READY = true ∧
          f.testBit SPIFLASH_BIT_FLAGS_ERASE_ERROR = true) ∧
      (r = 0 ↔
        pre.testBit SPIFLASH_BIT_FLAGS_READY = true ∧
        ∃ f k, spiflash_poll_completion mhz SPIFLASH_ERASE_TIMEOUT_US
            start resps = some (f, k) ∧
          f.testBit SPIFLASH_BIT_FLAGS_READY = true ∧
          f.testBit SPIFLASH_BIT_FLAGS_ERASE_ERROR = false)) := by
  constructor
  · intro r tr h
    rw [page_program_eq_write_op] at h
    exact write_op_cases _ _ _ _ _ _ _ _ _ _ _ h
  · intro r tr h
    rw [sector_erase_eq_write_op] at h
    exact write_op_cases _ _ _ _ _ _ _ _ _ _ _ h

/-- Witness for C2: a concrete FAILED run of `page_program` (pre-flight
flag byte 0x80, poll flag byte 0x90 = READY + PROGRAM_ERROR). -/
theorem spiflash_write_ops_error_codes_exclusive_witness :
    Nat.testBit 128 SPIFLASH_BIT_FLAGS_READY = true ∧
    ∃ f k, spiflash_poll_completion 100 SPIFLASH_PROGRAM_TIMEOUT_US 0
        [(144, 0)] = some (f, k) ∧
      f.testBit SPIFLASH_BIT_FLAGS_READY = true ∧
      f.testBit SPIFLASH_BIT_FLAGS_PROGRAM_ERROR = true :=
  (((spiflash_write_ops_error_codes_exclusive 100 0 128 0 [] [(144, 0)]).1
      RVLIB_SPIFLASH_ERR_FAILED
      [SpiAct.cmdRead 112 1, SpiAct.cmdSimple 80, SpiAct.cmdSimple 6,
       SpiAct.cmdAddrWrite 2 0 [], SpiAct.cmdRead 112 1, SpiAct.cmdSimple 80]
      (by decide)).2.2.1).mp rfl

/-- C3: whenever `rvlib_spiflash_page_program` or
`rvlib_spiflash_sector_erase` is entered and the pre-flight flag byte has
the READY bit clear, the call returns NOT_READY and its transaction trace
is exactly the single READ FLAGS command+read — no clear-flags,
write-enable, program or erase command is issued. -/
theorem spiflash_notready_sends_only_flag_query
    (mhz start pre addr : Nat) (data : List Nat)
    (resps : List (Nat × Nat))
    (h : pre.testBit SPIFLASH_BIT_FLAGS_READY = false) :
    rvlib_spiflash_page_program mhz start pre resps addr data =
      some (RVLIB_SPIFLASH_ERR_NOTREADY,
        [SpiAct.cmdRead SPIFLASH_CMD_READ_FLAGS 1]) ∧
    rvlib_spiflash_sector_erase mhz start pre resps addr =
      some (RVLIB_SPIFLASH_ERR_NOTREADY,
        [SpiAct.cmdRead SPIFLASH_CMD_READ_FLAGS 1]) := by
  constructor
  · unfold rvlib_spiflash_page_program
    simp [h]
  · unfold rvlib_spiflash_sector_erase
    simp [h]

/-- Witness for C3: pre-flight flag byte 0 (READY clear). -/
theorem spiflash_notready_sends_only_flag_query_witness :
    Nat.testBit 0 SPIFLASH_BIT_FLAGS_READY = false ∧
    rvlib_spiflash_page_program 100 7 0 [] 3 [5] =
      some (RVLIB_SPIFLASH_ERR_NOTREADY,
        [SpiAct.cmdRead SPIFLASH_CMD_READ_FLAGS 1]) ∧
    rvlib_spiflash_sector_erase 100 7 0 [] 3 =
      some (RVLIB_SPIFLASH_ERR_NOTREADY,
        [SpiAct.cmdRead SPIFLASH_CMD_READ_FLAGS 1]) :=
  ⟨by decide,
   (spiflash_notready_sends_only_flag_query 100 7 0 3 [5] [] (by decide)).1,
   (spiflash_notready_sends_only_flag_query 100 7 0 3 [5] [] (by decide)).2⟩

/-- C7: whenever `rvlib_spiflash_page_program` or
`rvlib_spiflash_sector_erase` returns FAILED, the transaction trace ends
with one CLEAR FLAGS command issued after the completion poll's flag
queries (so the device's error flags are cleared before the call
returns). -/
theorem spiflash_failed_clears_flags
    (mhz start pre addr : Nat) (data : List Nat)
    (resps : List (Nat × Nat)) :
    (∀ tr,
      rvlib_spiflash_page_program mhz start pre resps addr data =
        some (RVLIB_SPIFLASH_ERR_FAILED, tr) →
      ∃ f k, spiflash_poll_completion mhz SPIFLASH_PROGRAM_TIMEOUT_US
          start resps = some (f, k) ∧ 1 ≤ k ∧
        tr = ([SpiAct.cmdRead SPIFLASH_CMD_READ_FLAGS 1,
               SpiAct.cmdSimple SPIFLASH_CMD_CLEAR_FLAGS,
               SpiAct.cmdSimple SPIFLASH_CMD_WRITE_ENABLE,
               SpiAct.cmdAddrWrite SPIFLASH_CMD_PAGE_PROGRAM addr data] ++
              List.replicate k (SpiAct.cmdRead SPIFLASH_CMD_READ_FLAGS 1)) ++
          [SpiAct.cmdSimple SPIFLASH_CMD_CLEAR_FLAGS] ∧
        tr.getLast? = some (SpiAct.cmdSimple SPIFLASH_CMD_CLEAR_FLAGS)) ∧
    (∀ tr,
      rvlib_spiflash_sector_erase mhz start pre resps addr =
        some (RVLIB_SPIFLASH_ERR_FAILED, tr) →
      ∃ f k, spiflash_poll_completion mhz SPIFLASH_ERASE_TIMEOUT_US
          start resps = some (f, k) ∧ 1 ≤ k ∧
        tr = ([SpiAct.cmdRead SPIFLASH_CMD_READ_FLAGS 1,
               SpiAct.cmdSimple SPIFLASH_CMD_CLEAR_FLAGS,
               SpiAct.cmdSimple SPIFLASH_CMD_WRITE_ENABLE,
               SpiAct.cmdAddrWrite SPIFLASH_CMD_SECTOR_ERASE addr []] ++
              List.replicate k (SpiAct.cmdRead SPIFLASH_CMD_READ_FLAGS 1)) ++
          [SpiAct.cmdSimple SPIFLASH_CMD_CLEAR_FLAGS] ∧
        tr.getLast? = some (SpiAct.cmdSimple SPIFLASH_CMD_CLEAR_FLAGS)) := by
  constructor
  · intro tr h
    rw [page_program_eq_write_op] at h
    obtain ⟨f, k, hpoll, hk, htr⟩ :=
      write_op_failed_trace _ _ _ _ _ _ _ _ _ _ h
    exact ⟨f, k, hpoll, hk, htr, by rw [htr]; exact List.getLast?_concat _⟩
  · intro tr h
    rw [sector_erase_eq_write_op] at h
    obtain ⟨f, k, hpoll, hk, htr⟩ :=
      write_op_failed_trace _ _ _ _ _ _ _ _ _ _ h
    exact ⟨f, k, hpoll, hk, htr, by rw [htr]; exact List.getLast?_concat _⟩

/-- Witness for C7: a concrete FAILED erase (pre-flight byte 0x80, poll
flag byte 0xA0 = READY + ERASE_ERROR). -/
theorem spiflash_failed_clears_flags_witness :
    ∃ f k, spiflash_poll_completion 100 SPIFLASH_ERASE_TIMEOUT_US 0
        [(160, 0)] = some (f, k) ∧ 1 ≤ k ∧
      ([SpiAct.cmdRead 112 1, SpiAct.cmdSimple 80, SpiAct.cmdSimple 6,
        SpiAct.cmdAddrWrite 216 9 [], SpiAct.cmdRead 112 1,
        SpiAct.cmdSimple 80] : List SpiAct) =
        ([SpiAct.cmdRead SPIFLASH_CMD_READ_FLAGS 1,
          SpiAct.cmdSimple SPIFLASH_CMD_CLEAR_FLAGS,
          SpiAct.cmdSimple SPIFLASH_CMD_WRITE_ENABLE,
          SpiAct.cmdAddrWrite SPIFLASH_CMD_SECTOR_ERASE 9 []] ++
         List.replicate k (SpiAct.cmdRead SPIFLASH_CMD_READ_FLAGS 1)) ++
        [SpiAct.cmdSimple SPIFLASH_CMD_CLEAR_FLAGS] ∧
      ([SpiAct.cmdRead 112 1, SpiAct.cmdSimple 80, SpiAct.cmdSimple 6,
        SpiAct.cmdAddrWrite 216 9 [], SpiAct.cmdRead 112 1,
        SpiAct.cmdSimple 80] : List SpiAct).getLast? =
        some (SpiAct.cmdSimple SPIFLASH_CMD_CLEAR_FLAGS) :=
  (spiflash_failed_clears_flags 100 0 128 9 [] [(160, 0)]).2
    [SpiAct.cmdRead 112 1, SpiAct.cmdSimple 80, SpiAct.cmdSimple 6,
     SpiAct.cmdAddrWrite 216 9 [], SpiAct.cmdRead 112 1,
     SpiAct.cmdSimple 80]
    (by decide)

/-- C10: each write-class operation consults only its own error flag when
deciding FAILED: given a READY pre-flight byte and a READY poll byte `f`,
`page_program` returns FAILED exactly when bit 4 (PROGRAM_ERROR) of `f`
is set — returning 0 even when bit 5 is set — and `sector_erase` returns
FAILED exactly when bit 5 (ERASE_ERROR) is set — returning 0 even when
bit 4 is set. -/
theorem spiflash_ops_check_own_error_flag
    (mhz start pre addr : Nat) (data : List Nat)
    (resps : List (Nat × Nat))
    (hpre : pre.testBit SPIFLASH_BIT_FLAGS_READY = true) :
    (∀ f k, spiflash_poll_completion mhz SPIFLASH_PROGRAM_TIMEOUT_US start
        resps = some (f, k) →
      f.testBit SPIFLASH_BIT_FLAGS_READY = true →
      ∃ tr, rvlib_spiflash_page_program mhz start pre resps addr data =
        some (if f.testBit SPIFLASH_BIT_FLAGS_PROGRAM_ERROR then
                RVLIB_SPIFLASH_ERR_FAILED
              else 0, tr)) ∧
    (∀ f k, spiflash_poll_completion mhz SPIFLASH_ERASE_TIMEOUT_US start
        resps = some (f, k) →
      f.testBit SPIFLASH_BIT_FLAGS_READY = true →
      ∃ tr, rvlib_spiflash_sector_erase mhz start pre resps addr =
        some (if f.testBit SPIFLASH_BIT_FLAGS_ERASE_ERROR then
                RVLIB_SPIFLASH_ERR_FAILED
              else 0, tr)) := by
  constructor
  · intro f k hpoll hf
    rw [page_program_eq_write_op]
    exact write_op_ready_result _ _ _ _ _ _ _ _ _ _ _ hpre hpoll hf
  · intro f k hpoll hf
    rw [sector_erase_eq_write_op]
    exact write_op_ready_result _ _ _ _ _ _ _ _ _ _ _ hpre hpoll hf

/-- Witness for C10: with poll flag byte 0xA0 (READY + ERASE_ERROR)
`page_program` succeeds, and with poll flag byte 0x90
(READY + PROGRAM_ERROR) `sector_erase` succeeds. -/
theorem spiflash_ops_check_own_error_flag_witness :
    (∃ tr, rvlib_spiflash_page_program 100 0 128 [(160, 0)] 0 [] =
      some (if Nat.testBit 160 SPIFLASH_BIT_FLAGS_PROGRAM_ERROR then
              RVLIB_SPIFLASH_ERR_FAILED
            else 0, tr)) ∧
    (∃ tr, rvlib_spiflash_sector_erase 100 0 128 [(144, 0)] 0 =
      some (if Nat.testBit 144 SPIFLASH_BIT_FLAGS_ERASE_ERROR then
              RVLIB_SPIFLASH_ERR_FAILED
            else 0, tr)) :=
  ⟨(spiflash_ops_check_own_error_flag 100 0 128 0 [] [(160, 0)]
      (by decide)).1 160 1 (by decide) (by decide),
   (spiflash_ops_check_own_error_flag 100 0 128 0 [] [(144, 0)]
      (by decide)).2 144 1 (by decide) (by decide)⟩

/-- C6 counterexample: substituting only the erase command code, the
empty payload and the long timeout into the Page-Program sequence (i.e.
keeping Page Program's PROGRAM_ERROR flag in the result interpretation)
does not reproduce `rvlib_spiflash_sector_erase`: with poll flag byte
0xA0 (READY + ERASE_ERROR) the actual erase returns FAILED and issues an
extra CLEAR FLAGS, while the claimed substitution returns 0.  The first
conjunct checks that the generic sequence with Page Program's own
parameters is exactly `rvlib_spiflash_page_program`. -/
theorem spiflash_sector_erase_param_subst_counterexample :
    (rvlib_spiflash_page_program 1 0 128 [(160, 0)] 0 [] =
      spiflash_write_op_spec 1 0 SPIFLASH_CMD_PAGE_PROGRAM []
        SPIFLASH_PROGRAM_TIMEOUT_US SPIFLASH_BIT_FLAGS_PROGRAM_ERROR
        128 [(160, 0)] 0) ∧
    rvlib_spiflash_sector_erase 1 0 128 [(160, 0)] 0 ≠
      spiflash_write_op_spec 1 0 SPIFLASH_CMD_SECTOR_ERASE []
        SPIFLASH_ERASE_TIMEOUT_US SPIFLASH_BIT_FLAGS_PROGRAM_ERROR
        128 [(160, 0)] 0 := by
  constructor
  · decide
  · decide

/-- C6 (amended): `rvlib_spiflash_sector_erase` executes the same state
sequence as `rvlib_spiflash_page_program` — both are instances of the
generic pre-flight / clear-flags / write-enable / command+address /
poll / result-interpretation sequence — differing only in the erase
command code (0xD8 instead of 0x02), an empty payload, the long
erase-class timeout instead of the short program-class timeout, and the
operation's own error flag (ERASE_ERROR bit 5 instead of PROGRAM_ERROR
bit 4) consulted in the result interpretation. -/
theorem spiflash_sector_erase_refines_generic_op
    (mhz start pre addr : Nat) (data : List Nat)
    (resps : List (Nat × Nat)) :
    rvlib_spiflash_page_program mhz start pre resps addr data =
      spiflash_write_op_spec mhz start SPIFLASH_CMD_PAGE_PROGRAM data
        SPIFLASH_PROGRAM_TIMEOUT_US SPIFLASH_BIT_FLAGS_PROGRAM_ERROR
        pre resps addr ∧
    rvlib_spiflash_sector_erase mhz start pre resps addr =
      spiflash_write_op_spec mhz start SPIFLASH_CMD_SECTOR_ERASE []
        SPIFLASH_ERASE_TIMEOUT_US SPIFLASH_BIT_FLAGS_ERASE_ERROR
        pre resps addr :=
  ⟨page_program_eq_write_op mhz start pre addr data resps,
   sector_erase_eq_write_op mhz start pre addr resps⟩

/-- Full characterisation of the polling loop: it stops at the first
query whose flag byte is READY or whose deadline check fails, and returns
that query's flag byte together with the query count. -/
lemma poll_go_spec (et : Nat) :
    ∀ (resps : List (Nat × Nat)) (f k : Nat),
      spiflash_poll_go et resps = some (f, k) →
      1 ≤ k ∧ k ≤ resps.length ∧
      (∃ now, resps[k - 1]? = some (f, now) ∧
        (f.testBit SPIFLASH_BIT_FLAGS_READY = true ∨ 2 ^ 63 ≤ sub64 et now)) ∧
      (∀ j, j < k - 1 → ∀ g m, resps[j]? = some (g, m) →
        g.testBit SPIFLASH_BIT_FLAGS_READY = false ∧ sub64 et m < 2 ^ 63) := by
  intro resps
  induction resps with
  | nil => intro f k h; simp [spiflash_poll_go] at h
  | cons x rest ih =>
    obtain ⟨flags, now⟩ := x
    intro f k h
    unfold spiflash_poll_go at h
    by_cases h1 : flags.testBit SPIFLASH_BIT_FLAGS_READY
    · rw [if_pos h1] at h
      simp only [Option.some.injEq, Prod.mk.injEq] at h
      obtain ⟨hf, hk⟩ := h
      subst hf
      subst hk
      exact ⟨le_refl 1, by simp, ⟨now, by simp, Or.inl h1⟩,
        fun j hj => absurd hj (by omega)⟩
    · rw [if_neg h1] at h
      by_cases h2 : 2 ^ 63 ≤ sub64 et now
      · rw [if_pos h2] at h
        simp only [Option.some.injEq, Prod.mk.injEq] at h
        obtain ⟨hf, hk⟩ := h
        subst hf
        subst hk
        exact ⟨le_refl 1, by simp, ⟨now, by simp, Or.inr h2⟩,
          fun j hj => absurd hj (by omega)⟩
      · rw [if_neg h2] at h
        cases hrec : spiflash_poll_go et rest with
        | none => simp only [hrec] at h; exact absurd h (by simp)
        | some fk =>
          obtain ⟨f0, k0⟩ := fk
          simp only [hrec, Option.some.injEq, Prod.mk.injEq] at h
          obtain ⟨hf, hk⟩ := h
          subst hf
          subst hk
          obtain ⟨hk1, hklen, ⟨now0, hget, hexit⟩, hbefore⟩ := ih _ _ hrec
          obtain ⟨k1, rfl⟩ : ∃ k1, k0 = k1 + 1 := ⟨k0 - 1, by omega⟩
          refine ⟨by omega, by simpa using hklen, ⟨now0, ?_, hexit⟩, ?_⟩
          · simpa using hget
          · intro j hj g m hgm
            cases j with
            | zero =>
              simp only [List.getElem?_cons_zero, Option.some.injEq,
                Prod.mk.injEq] at hgm
              obtain ⟨hg, hm⟩ := hgm
              subst hg
              subst hm
              exact ⟨Bool.not_eq_true _ ▸ h1, by omega⟩
            | succ j1 =>
              simp only [List.getElem?_cons_succ] at hgm
              exact hbefore j1 (by omega) g m hgm

/-- C4: `spiflash_poll_completion` repeatedly issues a one-byte
READ FLAGS query until the returned flag byte has the READY bit set or
the deadline is exceeded; it returns the flag byte observed on the final
query (every earlier query was neither READY nor past the deadline), and
when it exits by timeout the returned byte has the READY bit clear. -/
theorem spiflash_poll_completion_returns_final_flags
    (mhz timeout_us start : Nat) (resps : List (Nat × Nat)) (f k : Nat)
    (h : spiflash_poll_completion mhz timeout_us start resps = some (f, k)) :
    1 ≤ k ∧ k ≤ resps.length ∧
    (∃ now, resps[k - 1]? = some (f, now) ∧
      (f.testBit SPIFLASH_BIT_FLAGS_READY = true ∨
       (f.testBit SPIFLASH_BIT_FLAGS_READY = false ∧
        2 ^ 63 ≤ sub64 (spiflash_end_time mhz timeout_us start) now))) ∧
    (∀ j, j < k - 1 → ∀ g m, resps[j]? = some (g, m) →
      g.testBit SPIFLASH_BIT_FLAGS_READY = false ∧
      sub64 (spiflash_end_time mhz timeout_us start) m < 2 ^ 63) := by
  have hs := poll_go_spec (spiflash_end_time mhz timeout_us start) resps f k h
  refine ⟨hs.1, hs.2.1, ?_, hs.2.2.2⟩
  obtain ⟨now, hget, hx⟩ := hs.2.2.1
  refine ⟨now, hget, ?_⟩
  cases hx with
  | inl hr => exact Or.inl hr
  | inr ht =>
    by_cases hf : f.testBit SPIFLASH_BIT_FLAGS_READY
    · exact Or.inl hf
    · exact Or.inr ⟨by simpa using hf, ht⟩

/-- Witness for C4: a concrete timeout exit (flag byte 0, counter already
past the deadline). -/
theorem spiflash_poll_completion_returns_final_flags_witness :
    1 ≤ 1 ∧ 1 ≤ ([(0, 20)] : List (Nat × Nat)).length ∧
    (∃ now, ([(0, 20)] : List (Nat × Nat))[1 - 1]? = some (0, now) ∧
      (Nat.testBit 0 SPIFLASH_BIT_FLAGS_READY = true ∨
       (Nat.testBit 0 SPIFLASH_BIT_FLAGS_READY = false ∧
        2 ^ 63 ≤ sub64 (spiflash_end_time 1 10 0) now))) ∧
    (∀ j, j < 1 - 1 → ∀ g m, ([(0, 20)] : List (Nat × Nat))[j]? = some (g, m) →
      g.testBit SPIFLASH_BIT_FLAGS_READY = false ∧
      sub64 (spiflash_end_time 1 10 0) m < 2 ^ 63) :=
  spiflash_poll_completion_returns_final_flags 1 10 0 [(0, 20)] 0 1
    (by decide)

/-- C5: the poll deadline is `start + timeout_us × mhz` reduced modulo
2^64, and the expiry test — the unsigned 64-bit difference
`end_time − now` having its top bit set — decides expiry correctly even
when the deadline wraps around the counter width: for an actual elapsed
cycle count `e` (so `now = start + e`), as long as the duration fits in
63 bits and `e` has not run 2^63 past the deadline, the test holds
exactly when `e` exceeds the duration. -/
theorem spiflash_poll_deadline_wraparound_correct
    (mhz timeout_us start e : Nat)
    (hd : mhz * timeout_us < 2 ^ 63)
    (he : e ≤ mhz * timeout_us + 2 ^ 63) :
    (2 ^ 63 ≤ sub64 (spiflash_end_time mhz timeout_us start) (start + e) ↔
      mhz * timeout_us < e) := by
  unfold spiflash_end_time sub64 mod64
  generalize mhz * timeout_us = d at *
  omega

/-- Witness for C5: a deadline that wraps around 2^64
(`start = 2^64 − 3`, duration 5 cycles): one cycle past the deadline the
test reports expired, at the deadline it does not. -/
theorem spiflash_poll_deadline_wraparound_correct_witness :
    ((2 ^ 63 ≤ sub64 (spiflash_end_time 1 5 (2 ^ 64 - 3)) (2 ^ 64 - 3 + 6) ↔
        1 * 5 < 6) ∧
     (2 ^ 63 ≤ sub64 (spiflash_end_time 1 5 (2 ^ 64 - 3)) (2 ^ 64 - 3 + 5) ↔
        1 * 5 < 5)) :=
  ⟨spiflash_poll_deadline_wraparound_correct 1 5 (2 ^ 64 - 3) 6
      (by decide) (by decide),
   spiflash_poll_deadline_wraparound_correct 1 5 (2 ^ 64 - 3) 5
      (by decide) (by decide)⟩

lemma rbStep_p (st d : Nat) (s : RB) :
    (rbStep st d s).p =
      if st.testBit RVLIB_SPIFLASH_BIT_STATUS_READRDY then s.p + 1
      else s.p := by
  unfold rbStep
  split_ifs <;> rfl

lemma rbStep_ncmd (st d : Nat) (s : RB) :
    (rbStep st d s).ncmd =
      if 0 < s.ncmd && st.testBit RVLIB_SPIFLASH_BIT_STATUS_CMDRDY then
        s.ncmd - 1
      else s.ncmd := by
  unfold rbStep
  split_ifs <;> rfl

lemma rbStep_buf (st d : Nat) (s : RB) :
    (rbStep st d s).buf =
      if st.testBit RVLIB_SPIFLASH_BIT_STATUS_READRDY then s.buf ++ [d]
      else s.buf := by
  unfold rbStep
  split_ifs <;> rfl

lemma rbTrace_dummy (st d : Nat) (s : RB) :
    countDummyWrites (rbTrace st d s) =
      if 0 < s.ncmd && st.testBit RVLIB_SPIFLASH_BIT_STATUS_CMDRDY then 1
      else 0 := by
  unfold rbTrace countDummyWrites
  split_ifs <;> simp [List.countP_cons, List.countP_append]

lemma rbTrace_reads (st d : Nat) (s : RB) :
    countDataReads (rbTrace st d s) =
      if st.testBit RVLIB_SPIFLASH_BIT_STATUS_READRDY then 1 else 0 := by
  unfold rbTrace countDataReads
  split_ifs <;> simp [List.countP_cons, List.countP_append]

lemma spi_read_go_inv (n : Nat) :
    ∀ (obs : List (Nat × Nat)) (s sf : RB) (tr : List RegAcc),
      spi_read_bytes_go n s obs = some (sf, tr) →
      rbConsistent n s obs = true →
      s.ncmd ≤ n → s.p ≤ n - s.ncmd → s.buf.length = s.p →
      sf.p = n ∧ sf.ncmd = 0 ∧ sf.buf.length = n ∧
      sf.ncmd ≤ s.ncmd ∧ s.p ≤ sf.p ∧
      countDummyWrites tr = s.ncmd - sf.ncmd ∧
      countDataReads tr = sf.p - s.p := by
  intro obs
  induction obs with
  | nil =>
    intro s sf tr h hc h1 h2 h3
    simp only [spi_read_bytes_go] at h
    by_cases hp : n ≤ s.p
    · rw [if_pos hp] at h
      simp only [Option.some.injEq, Prod.mk.injEq] at h
      obtain ⟨hs, ht⟩ := h
      rw [← hs, ← ht]
      refine ⟨by omega, by omega, by omega, le_refl _, le_refl _, ?_, ?_⟩ <;>
        simp [countDummyWrites, countDataReads]
    · rw [if_neg hp] at h
      exact absurd h (by simp)
  | cons o rest ih =>
    obtain ⟨st, d⟩ := o
    intro s sf tr h hc h1 h2 h3
    simp only [spi_read_bytes_go] at h
    by_cases hp : n ≤ s.p
    · rw [if_pos hp] at h
      simp only [Option.some.injEq, Prod.mk.injEq] at h
      obtain ⟨hs, ht⟩ := h
      rw [← hs, ← ht]
      refine ⟨by omega, by omega, by omega, le_refl _, le_refl _, ?_, ?_⟩ <;>
        simp [countDummyWrites, countDataReads]
    · rw [if_neg hp] at h
      cases hrec : spi_read_bytes_go n (rbStep st d s) rest with
      | none => simp only [hrec] at h; exact absurd h (by simp)
      | some sft =>
        obtain ⟨s2, t2⟩ := sft
        simp only [hrec, Option.some.injEq, Prod.mk.injEq] at h
        obtain ⟨hsf, htr⟩ := h
        rw [← hsf, ← htr]
        simp only [rbConsistent] at hc
        rw [if_neg hp] at hc
        simp only [Bool.and_eq_true, Bool.or_eq_true, Bool.not_eq_true',
          decide_eq_true_eq] at hc
        obtain ⟨hcons1, hcons2⟩ := hc
        have hmono : n - s.ncmd ≤
            n - (if 0 < s.ncmd &&
                   st.testBit RVLIB_SPIFLASH_BIT_STATUS_CMDRDY then
                 s.ncmd - 1 else s.ncmd) := by
          split_ifs <;> omega
        have hin1 : (rbStep st d s).ncmd ≤ n := by
          rw [rbStep_ncmd]
          split_ifs <;> omega
        have hin2 : (rbStep st d s).p ≤ n - (rbStep st d s).ncmd := by
          rw [rbStep_p, rbStep_ncmd]
          rcases hcons1 with hF | hLt
          · rw [if_neg (by simp [hF])]
            omega
          · by_cases hrd : st.testBit RVLIB_SPIFLASH_BIT_STATUS_READRDY = true
            · rw [if_pos hrd]
              omega
            · rw [if_neg hrd]
              omega
        have hin3 : (rbStep st d s).buf.length = (rbStep st d s).p := by
          rw [rbStep_buf, rbStep_p]
          split_ifs <;> simp [h3]
        obtain ⟨ih1, ih2, ih3, ih4, ih5, ih6, ih7⟩ :=
          ih _ s2 t2 hrec hcons2 hin1 hin2 hin3
        have hdw : countDummyWrites (rbTrace st d s ++ t2) =
            countDummyWrites (rbTrace st d s) + countDummyWrites t2 := by
          unfold countDummyWrites
          simp [List.countP_append]
        have hdr : countDataReads (rbTrace st d s ++ t2) =
            countDataReads (rbTrace st d s) + countDataReads t2 := by
          unfold countDataReads
          simp [List.countP_append]
        have hsn := rbStep_ncmd st d s
        have hsp := rbStep_p st d s
        refine ⟨ih1, ih2, ih3, ?_, ?_, ?_, ?_⟩
        · have h4 := ih4
          rw [hsn] at h4
          split_ifs at h4 <;> omega
        · have h5 := ih5
          rw [hsp] at h5
          split_ifs at h5 <;> omega
        · rw [hdw, rbTrace_dummy, ih6, hsn]
          have h4 := ih4
          rw [hsn] at h4
          split_ifs at h4 ⊢ with hA
          · rw [Bool.and_eq_true, decide_eq_true_eq] at hA
            obtain ⟨h0, -⟩ := hA
            omega
          · omega
        · rw [hdr, rbTrace_reads, ih7, hsp]
          have h5 := ih5
          rw [hsp] at h5
          split_ifs at h5 ⊢ <;> omega

/-- C1: for every requested length `n`, a terminating run of
`spi_read_bytes(buf, n)` issues exactly `n` dummy-byte requests (writes
of the sentinel 0x100 to DATA) and captures exactly `n` received bytes,
under any interleaving of the CMD_READY and READ_READY status bits that
is consistent with the controller (READ_READY is reported only while a
requested byte is outstanding); at loop exit the capture position, the
remaining-request counter and the buffer length show
request count = completion count = `n`. -/
theorem spi_read_bytes_exact_counts (n : Nat) (obs : List (Nat × Nat))
    (sf : RB) (tr : List RegAcc)
    (h : spi_read_bytes n obs = some (sf, tr))
    (hc : rbConsistent n (RB.mk 0 n []) obs = true) :
    sf.p = n ∧ sf.ncmd = 0 ∧ sf.buf.length = n ∧
    countDummyWrites tr = n ∧ countDataReads tr = n := by
  obtain ⟨h1, h2, h3, h4, h5, h6, h7⟩ :=
    spi_read_go_inv n obs (RB.mk 0 n []) sf tr h hc (le_refl n)
      (by simp) rfl
  dsimp only at h6 h7
  exact ⟨h1, h2, h3, by omega, by omega⟩

/-- Witness for C1: a 2-byte read whose script interleaves one request,
one capture, one request, one capture. -/
theorem spi_read_bytes_exact_counts_witness :
    (RB.mk 2 0 [7, 9]).p = 2 ∧ (RB.mk 2 0 [7, 9]).ncmd = 0 ∧
    (RB.mk 2 0 [7, 9]).buf.length = 2 ∧
    countDummyWrites [RegAcc.readStatus 2, RegAcc.writeData 256,
      RegAcc.readStatus 4, RegAcc.readData 7, RegAcc.readStatus 2,
      RegAcc.writeData 256, RegAcc.readStatus 4, RegAcc.readData 9] = 2 ∧
    countDataReads [RegAcc.readStatus 2, RegAcc.writeData 256,
      RegAcc.readStatus 4, RegAcc.readData 7, RegAcc.readStatus 2,
      RegAcc.writeData 256, RegAcc.readStatus 4, RegAcc.readData 9] = 2 :=
  spi_read_bytes_exact_counts 2 [(2, 0), (4, 7), (2, 0), (4, 9)]
    (RB.mk 2 0 [7, 9])
    [RegAcc.readStatus 2, RegAcc.writeData 256, RegAcc.readStatus 4,
     RegAcc.readData 7, RegAcc.readStatus 2, RegAcc.writeData 256,
     RegAcc.readStatus 4, RegAcc.readData 9]
    (by decide) (by decide)

/-- The property C8 asserts of every transaction trace: the single write
to SLAVESEL is the last register access, writes the deassert value 0, and
is immediately preceded by a STATUS read in which BUSY is clear; no
earlier access touches SLAVESEL. -/
def deassertLastAfterIdle (tr : List RegAcc) : Prop :=
  ∃ t0 v, tr = t0 ++ [RegAcc.readStatus v, RegAcc.writeSlaveSel 0] ∧
    v.testBit RVLIB_SPIFLASH_BIT_STATUS_BUSY = false ∧
    ∀ a ∈ t0, a.isSlaveSelWrite = false

lemma no_slavesel_append (t1 t2 : List RegAcc)
    (h1 : ∀ a ∈ t1, a.isSlaveSelWrite = false)
    (h2 : ∀ a ∈ t2, a.isSlaveSelWrite = false) :
    ∀ a ∈ t1 ++ t2, a.isSlaveSelWrite = false := by
  intro a ha
  rcases List.mem_append.mp ha with h | h
  · exact h1 a h
  · exact h2 a h

lemma deassert_append (t1 t2 : List RegAcc)
    (h1 : ∀ a ∈ t1, a.isSlaveSelWrite = false)
    (h2 : deassertLastAfterIdle t2) :
    deassertLastAfterIdle (t1 ++ t2) := by
  obtain ⟨t0, v, ht, hv, hno⟩ := h2
  refine ⟨t1 ++ t0, v, by rw [ht, List.append_assoc], hv, ?_⟩
  exact no_slavesel_append t1 t0 h1 hno

lemma spi_send_byte_no_slavesel (b : Nat) :
    ∀ (sc : List Nat) (tr : List RegAcc), spi_send_byte b sc = some tr →
      ∀ a ∈ tr, a.isSlaveSelWrite = false := by
  intro sc
  induction sc with
  | nil => intro tr h; simp [spi_send_byte] at h
  | cons st rest ih =>
    intro tr h
    simp only [spi_send_byte] at h
    by_cases hb : st.testBit RVLIB_SPIFLASH_BIT_STATUS_CMDRDY
    · rw [if_pos hb] at h
      simp only [Option.some.injEq] at h
      rw [← h]
      simp [RegAcc.isSlaveSelWrite]
    · rw [if_neg hb] at h
      cases hr : spi_send_byte b rest with
      | none => simp [hr] at h
      | some t =>
        simp only [hr, Option.map_some', Option.some.injEq] at h
        rw [← h]
        intro a ha
        rcases List.mem_cons.mp ha with rfl | ha2
        · rfl
        · exact ih t hr a ha2

lemma rbTrace_no_slavesel (st d : Nat) (s : RB) :
    ∀ a ∈ rbTrace st d s, a.isSlaveSelWrite = false := by
  unfold rbTrace
  split_ifs <;> simp [RegAcc.isSlaveSelWrite]

lemma spi_read_bytes_go_no_slavesel (n : Nat) :
    ∀ (obs : List (Nat × Nat)) (s sf : RB) (tr : List RegAcc),
      spi_read_bytes_go n s obs = some (sf, tr) →
      ∀ a ∈ tr, a.isSlaveSelWrite = false := by
  intro obs
  induction obs with
  | nil =>
    intro s sf tr h
    simp only [spi_read_bytes_go] at h
    by_cases hp : n ≤ s.p
    · rw [if_pos hp] at h
      simp only [Option.some.injEq, Prod.mk.injEq] at h
      rw [← h.2]
      simp
    · rw [if_neg hp] at h
      exact absurd h (by simp)
  | cons o rest ih =>
    obtain ⟨st, d⟩ := o
    intro s sf tr h
    simp only [spi_read_bytes_go] at h
    by_cases hp : n ≤ s.p
    · rw [if_pos hp] at h
      simp only [Option.some.injEq, Prod.mk.injEq] at h
      rw [← h.2]
      simp
    · rw [if_neg hp] at h
      cases hrec : spi_read_bytes_go n (rbStep st d s) rest with
      | none => simp only [hrec] at h; exact absurd h (by simp)
      | some sft =>
        obtain ⟨s2, t2⟩ := sft
        simp only [hrec, Option.some.injEq, Prod.mk.injEq] at h
        rw [← h.2]
        exact no_slavesel_append _ _ (rbTrace_no_slavesel st d s)
          (ih _ s2 t2 hrec)

lemma spi_send_data_no_slavesel :
    ∀ (data : List Nat) (scs : List (List Nat)) (tr : List RegAcc),
      spi_send_data data scs = some tr →
      ∀ a ∈ tr, a.isSlaveSelWrite = false := by
  intro data
  induction data with
  | nil =>
    intro scs tr h
    simp only [spi_send_data, Option.some.injEq] at h
    rw [← h]
    simp
  | cons b bs ih =>
    intro scs tr h
    cases scs with
    | nil => simp [spi_send_data] at h
    | cons sc scs2 =>
      simp only [spi_send_data] at h
      cases h1 : spi_send_byte b sc with
      | none => simp [h1] at h
      | some t1 =>
        simp only [h1] at h
        cases h2 : spi_send_data bs scs2 with
        | none => simp [h2] at h
        | some t2 =>
          simp only [h2, Option.some.injEq] at h
          rw [← h]
          exact no_slavesel_append _ _
            (spi_send_byte_no_slavesel b sc t1 h1) (ih scs2 t2 h2)

lemma spi_end_transaction_shape :
    ∀ (sc : List Nat) (tr : List RegAcc), spi_end_transaction sc = some tr →
      deassertLastAfterIdle tr := by
  intro sc
  induction sc with
  | nil => intro tr h; simp [spi_end_transaction] at h
  | cons st rest ih =>
    intro tr h
    simp only [spi_end_transaction] at h
    by_cases hb : st.testBit RVLIB_SPIFLASH_BIT_STATUS_BUSY
    · rw [if_pos hb] at h
      cases hr : spi_end_transaction rest with
      | none => simp [hr] at h
      | some t =>
        simp only [hr, Option.map_some', Option.some.injEq] at h
        rw [← h]
        obtain ⟨t0, v, ht, hv, hno⟩ := ih t hr
        refine ⟨RegAcc.readStatus st :: t0, v, by rw [ht]; rfl, hv, ?_⟩
        intro a ha
        rcases List.mem_cons.mp ha with rfl | ha2
        · rfl
        · exact hno a ha2
    · rw [if_neg hb] at h
      simp only [Option.some.injEq] at h
      rw [← h]
      exact ⟨[], st, rfl, by simpa using hb, by simp⟩

/-- C8: every transaction of the four framing shapes ends with
`spi_end_transaction`: the deassert of slave-select (the write of 0 to
SLAVESEL) is the last register access of the transaction, occurs only
immediately after a STATUS read in which BUSY is clear, and SLAVESEL is
written nowhere else in the transaction. -/
theorem spi_transactions_deassert_after_idle :
    (∀ (cmd : Nat) (s1 s2 : List Nat) (tr : List RegAcc),
      spi_command_simple cmd s1 s2 = some tr → deassertLastAfterIdle tr) ∧
    (∀ (cmd n : Nat) (s1 : List Nat) (obs : List (Nat × Nat))
        (s2 : List Nat) (sf : RB) (tr : List RegAcc),
      spi_command_read cmd n s1 obs s2 = some (sf, tr) →
      deassertLastAfterIdle tr) ∧
    (∀ (cmd addr n : Nat) (s1 s2 s3 s4 : List Nat)
        (obs : List (Nat × Nat)) (s5 : List Nat) (sf : RB)
        (tr : List RegAcc),
      spi_command_addr_read cmd addr n s1 s2 s3 s4 obs s5 = some (sf, tr) →
      deassertLastAfterIdle tr) ∧
    (∀ (cmd addr : Nat) (data : List Nat) (s1 s2 s3 s4 : List Nat)
        (scs : List (List Nat)) (s5 : List Nat) (tr : List RegAcc),
      spi_command_addr_write cmd addr data s1 s2 s3 s4 scs s5 = some tr →
      deassertLastAfterIdle tr) := by
  refine ⟨?_, ?_, ?_, ?_⟩
  · intro cmd s1 s2 tr h
    unfold spi_command_simple at h
    cases h1 : spi_send_byte cmd s1 with
    | none => rw [h1] at h; simp at h
    | some t1 =>
      rw [h1] at h
      cases h2 : spi_end_transaction s2 with
      | none => rw [h2] at h; simp at h
      | some t2 =>
        rw [h2] at h
        simp only [Option.some.injEq] at h
        rw [← h]
        exact deassert_append _ _ (spi_send_byte_no_slavesel cmd s1 t1 h1)
          (spi_end_transaction_shape s2 t2 h2)
  · intro cmd n s1 obs s2 sf tr h
    unfold spi_command_read at h
    cases h1 : spi_send_byte cmd s1 with
    | none => rw [h1] at h; simp at h
    | some t1 =>
      rw [h1] at h
      cases h2 : spi_read_bytes n obs with
      | none => rw [h2] at h; simp at h
      | some st2 =>
        obtain ⟨sr, t2⟩ := st2
        rw [h2] at h
        cases h3 : spi_end_transaction s2 with
        | none => rw [h3] at h; simp at h
        | some t3 =>
          rw [h3] at h
          simp only [Option.some.injEq, Prod.mk.injEq] at h
          rw [← h.2]
          exact deassert_append _ _
            (no_slavesel_append _ _
              (spi_send_byte_no_slavesel cmd s1 t1 h1)
              (spi_read_bytes_go_no_slavesel n obs _ sr t2 h2))
            (spi_end_transaction_shape s2 t3 h3)
  · intro cmd addr n s1 s2 s3 s4 obs s5 sf tr h
    unfold spi_command_addr_read at h
    cases h1 : spi_send_byte cmd s1 with
    | none => rw [h1] at h; simp at h
    | some t1 =>
      rw [h1] at h
      cases h2 : spi_send_byte (addr / 2 ^ 16) s2 with
      | none => rw [h2] at h; simp at h
      | some t2 =>
        rw [h2] at h
        cases h3 : spi_send_byte (addr / 2 ^ 8) s3 with
        | none => rw [h3] at h; simp at h
        | some t3 =>
          rw [h3] at h
          cases h4 : spi_send_byte addr s4 with
          | none => rw [h4] at h; simp at h
          | some t4 =>
            rw [h4] at h
            cases h5 : spi_read_bytes n obs with
            | none => rw [h5] at h; simp at h
            | some st5 =>
              obtain ⟨sr, t5⟩ := st5
              rw [h5] at h
              cases h6 : spi_end_transaction s5 with
              | none => rw [h6] at h; simp at h
              | some t6 =>
                rw [h6] at h
                simp only [Option.some.injEq, Prod.mk.injEq] at h
                rw [← h.2]
                refine deassert_append _ _ ?_
                  (spi_end_transaction_shape s5 t6 h6)
                refine no_slavesel_append _ _ ?_
                  (spi_read_bytes_go_no_slavesel n obs _ sr t5 h5)
                refine no_slavesel_append _ _ ?_
                  (spi_send_byte_no_slavesel addr s4 t4 h4)
                refine no_slavesel_append _ _ ?_
                  (spi_send_byte_no_slavesel (addr / 2 ^ 8) s3 t3 h3)
                exact no_slavesel_append _ _
                  (spi_send_byte_no_slavesel cmd s1 t1 h1)
                  (spi_send_byte_no_slavesel (addr / 2 ^ 16) s2 t2 h2)
  · intro cmd addr data s1 s2 s3 s4 scs s5 tr h
    unfold spi_command_addr_write at h
    cases h1 : spi_send_byte cmd s1 with
    | none => rw [h1] at h; simp at h
    | some t1 =>
      rw [h1] at h
      cases h2 : spi_send_byte (addr / 2 ^ 16) s2 with
      | none => rw [h2] at h; simp at h
      | some t2 =>
        rw [h2] at h
        cases h3 : spi_send_byte (addr / 2 ^ 8) s3 with
        | none => rw [h3] at h; simp at h
        | some t3 =>
          rw [h3] at h
          cases h4 : spi_send_byte addr s4 with
          | none => rw [h4] at h; simp at h
          | some t4 =>
            rw [h4] at h
            cases h5 : spi_send_data data scs with
            | none => rw [h5] at h; simp at h
            | some t5 =>
              rw [h5] at h
              cases h6 : spi_end_transaction s5 with
              | none => rw [h6] at h; simp at h
              | some t6 =>
                rw [h6] at h
                simp only [Option.some.injEq] at h
                rw [← h]
                refine deassert_append _ _ ?_
                  (spi_end_transaction_shape s5 t6 h6)
                refine no_slavesel_append _ _ ?_
                  (spi_send_data_no_slavesel data scs t5 h5)
                refine no_slavesel_append _ _ ?_
                  (spi_send_byte_no_slavesel addr s4 t4 h4)
                refine no_slavesel_append _ _ ?_
                  (spi_send_byte_no_slavesel (addr / 2 ^ 8) s3 t3 h3)
                exact no_slavesel_append _ _
                  (spi_send_byte_no_slavesel cmd s1 t1 h1)
                  (spi_send_byte_no_slavesel (addr / 2 ^ 16) s2 t2 h2)

/-- Witness for C8: concrete runs of all four framing shapes. -/
theorem spi_transactions_deassert_after_idle_witness :
    deassertLastAfterIdle [RegAcc.readStatus 2, RegAcc.writeData 5,
      RegAcc.readStatus 0, RegAcc.writeSlaveSel 0] ∧
    deassertLastAfterIdle [RegAcc.readStatus 2, RegAcc.writeData 3,
      RegAcc.readStatus 2, RegAcc.writeData 256, RegAcc.readStatus 4,
      RegAcc.readData 7, RegAcc.readStatus 0, RegAcc.writeSlaveSel 0] ∧
    deassertLastAfterIdle [RegAcc.readStatus 2, RegAcc.writeData 3,
      RegAcc.readStatus 2, RegAcc.writeData 18, RegAcc.readStatus 2,
      RegAcc.writeData 52, RegAcc.readStatus 2, RegAcc.writeData 86,
      RegAcc.readStatus 0, RegAcc.writeSlaveSel 0] ∧
    deassertLastAfterIdle [RegAcc.readStatus 2, RegAcc.writeData 2,
      RegAcc.readStatus 2, RegAcc.writeData 0, RegAcc.readStatus 2,
      RegAcc.writeData 0, RegAcc.readStatus 2, RegAcc.writeData 0,
      RegAcc.readStatus 2, RegAcc.writeData 9, RegAcc.readStatus 0,
      RegAcc.writeSlaveSel 0] :=
  ⟨spi_transactions_deassert_after_idle.1 5 [2] [0] _ (by decide),
   spi_transactions_deassert_after_idle.2.1 3 1 [2] [(2, 0), (4, 7)] [0]
     (RB.mk 1 0 [7]) _ (by decide),
   spi_transactions_deassert_after_idle.2.2.1 3 1193046 0 [2] [2] [2] [2]
     [] [0] (RB.mk 0 0 []) _ (by decide),
   spi_transactions_deassert_after_idle.2.2.2 2 0 [9] [2] [2] [2] [2]
     [[2]] [0] _ (by decide)⟩


lemma drainOk_cons_read (v d : Nat) (t : List RegAcc)
    (h : v.testBit RVLIB_SPIFLASH_BIT_STATUS_READRDY = true) :
    drainOk (RegAcc.readStatus v :: RegAcc.readData d :: t) = drainOk t := by
  conv_lhs => rw [drainOk.eq_def]
  simp [h]

lemma drainOk_cons_busy (v : Nat) (t : List RegAcc)
    (h2 : v.testBit RVLIB_SPIFLASH_BIT_STATUS_READRDY = false)
    (h0 : v.testBit RVLIB_SPIFLASH_BIT_STATUS_BUSY = true) :
    drainOk (RegAcc.readStatus v :: t) = drainOk t := by
  conv_lhs => rw [drainOk.eq_def]
  simp [h2, h0]

lemma drainOk_last (v : Nat)
    (h2 : v.testBit RVLIB_SPIFLASH_BIT_STATUS_READRDY = false)
    (h0 : v.testBit RVLIB_SPIFLASH_BIT_STATUS_BUSY = false) :
    drainOk [RegAcc.readStatus v] = true := by
  rw [drainOk.eq_def]
  simp [h2, h0]

/-- Every terminating run of the `rvlib_spiflash_init` drain loop yields
a trace of the well-formed drain shape. -/
lemma rvlib_init_drain_ok :
    ∀ (ds : List (Nat × Nat)) (dt : List RegAcc),
      rvlib_init_drain ds = some dt → drainOk dt = true := by
  intro ds
  induction ds with
  | nil => intro dt h; simp [rvlib_init_drain] at h
  | cons o rest ih =>
    obtain ⟨st, d⟩ := o
    intro dt h
    simp only [rvlib_init_drain] at h
    by_cases h2 : st.testBit RVLIB_SPIFLASH_BIT_STATUS_READRDY
    · rw [if_pos h2] at h
      cases hr : rvlib_init_drain rest with
      | none => rw [hr] at h; simp at h
      | some t =>
        rw [hr] at h
        simp only [Option.map_some', Option.some.injEq] at h
        rw [← h, drainOk_cons_read st d t h2]
        exact ih t hr
    · have h2f : st.testBit RVLIB_SPIFLASH_BIT_STATUS_READRDY = false := by
        simpa using h2
      rw [if_neg h2] at h
      by_cases h0 : st.testBit RVLIB_SPIFLASH_BIT_STATUS_BUSY
      · rw [if_pos h0] at h
        cases hr : rvlib_init_drain rest with
        | none => rw [hr] at h; simp at h
        | some t =>
          rw [hr] at h
          simp only [Option.map_some', Option.some.injEq] at h
          rw [← h, drainOk_cons_busy st t h2f h0]
          exact ih t hr
      · have h0f : st.testBit RVLIB_SPIFLASH_BIT_STATUS_BUSY = false := by
          simpa using h0
        rw [if_neg h0] at h
        simp only [Option.some.injEq] at h
        rw [← h]
        exact drainOk_last st h2f h0f

/-- C9: a terminating run of `rvlib_spiflash_init` first drains the
controller — its drain trace has the well-formed shape: one byte dequeued
from DATA after each STATUS read with READ_READY set, looping while BUSY
is set, exiting only on a final STATUS read with both READ_READY and BUSY
clear — and then issues, in order, simple command 0xFF, a second simple
command 0xFF, a simple CLEAR_FLAGS (0x50) command, and a completion poll
(one READ_FLAGS command+read per query, at least one) with the long
erase-class timeout of 3,000,000 µs. -/
theorem spiflash_init_sequence (mhz : Nat) (ds : List (Nat × Nat))
    (start : Nat) (resps : List (Nat × Nat)) (dt : List RegAcc)
    (acts : List SpiAct)
    (h : rvlib_spiflash_init mhz ds start resps = some (dt, acts)) :
    drainOk dt = true ∧
    ∃ f k, spiflash_poll_completion mhz SPIFLASH_ERASE_TIMEOUT_US start
        resps = some (f, k) ∧ 1 ≤ k ∧
      acts = [SpiAct.cmdSimple 0xff, SpiAct.cmdSimple 0xff,
              SpiAct.cmdSimple SPIFLASH_CMD_CLEAR_FLAGS] ++
        List.replicate k (SpiAct.cmdRead SPIFLASH_CMD_READ_FLAGS 1) := by
  unfold rvlib_spiflash_init at h
  cases hd : rvlib_init_drain ds with
  | none => rw [hd] at h; simp at h
  | some dt0 =>
    rw [hd] at h
    cases hp : spiflash_poll_completion mhz SPIFLASH_ERASE_TIMEOUT_US
        start resps with
    | none => rw [hp] at h; simp at h
    | some fk =>
      obtain ⟨f, k⟩ := fk
      rw [hp] at h
      simp only [Option.some.injEq, Prod.mk.injEq] at h
      obtain ⟨hdt, hacts⟩ := h
      refine ⟨?_, f, k, rfl,
        poll_completion_pos mhz SPIFLASH_ERASE_TIMEOUT_US start resps f k hp,
        hacts.symm⟩
      rw [← hdt]
      exact rvlib_init_drain_ok ds dt0 hd

/-- Witness for C9: a one-iteration drain (idle controller) and a poll
that sees READY on the first query. -/
theorem spiflash_init_sequence_witness :
    drainOk [RegAcc.readStatus 0] = true ∧
    ∃ f k, spiflash_poll_completion 100 SPIFLASH_ERASE_TIMEOUT_US 0
        [(128, 0)] = some (f, k) ∧ 1 ≤ k ∧
      ([SpiAct.cmdSimple 255, SpiAct.cmdSimple 255, SpiAct.cmdSimple 80,
        SpiAct.cmdRead 112 1] : List SpiAct) =
        [SpiAct.cmdSimple 0xff, SpiAct.cmdSimple 0xff,
         SpiAct.cmdSimple SPIFLASH_CMD_CLEAR_FLAGS] ++
          List.replicate k (SpiAct.cmdRead SPIFLASH_CMD_READ_FLAGS 1) :=
  spiflash_init_sequence 100 [(0, 0)] 0 [(128, 0)] [RegAcc.readStatus 0]
    [SpiAct.cmdSimple 255, SpiAct.cmdSimple 255, SpiAct.cmdSimple 80,
     SpiAct.cmdRead 112 1] (by decide)
